import Mathlib

/-!
Verification of the `Cloud` container from `src/mapio/cloud.py`.

The Python class stores three numpy arrays (`self._lon`, `self._lat`,
`self._data`).  We embed a 1-D cloud shallowly: arrays are `List Rat`
(exact rationals in place of machine floats, since every claim here is
about shapes, masking, ordering and error flow rather than rounding),
an array shape is its length, and each Python method becomes a Lean
function.  Fallible operations return `Except PyErr _`; mutating
operations also return the resulting object state explicitly.
-/

/-- The exception kinds the methods of `cloud.py` can raise at runtime:
`DataSetException` (imported from `dataset.py`), `NotImplementedError`,
Python's `AttributeError` (reading a missing attribute), and numpy's
`ValueError` (reducing an empty array). -/
inductive PyErr where
  | dataSetException (msg : String)
  | notImplementedError (msg : String)
  | attributeError (msg : String)
  | valueError (msg : String)
deriving DecidableEq, Repr

/-- `true` exactly on the `DataSetException` kind. -/
def PyErr.isDataSetException : PyErr → Bool
  | .dataSetException _ => true
  | _ => false

/-- A Python value passed to `setData`: either a numpy array (which has a
`.shape`) or a non-array object (which has none). -/
inductive PyVal where
  | arr (xs : List Rat)
  | scalar (q : Rat)
deriving DecidableEq, Repr

/-- The `Cloud` object state.  `__init__` assigns exactly the attributes
`_lon`, `_lat` and `_data`, so these are the only fields. -/
structure Cloud where
  lon : List Rat
  lat : List Rat
  data : List Rat
deriving DecidableEq, Repr

/-- `Cloud.__init__(lon, lat, data)`: raises `DataSetException` unless the
three shapes agree (the source tests all three pairwise disequalities),
otherwise stores the three arrays. -/
def Cloud.init (lon lat data : List Rat) : Except PyErr Cloud :=
  if lon.length ≠ lat.length ∨ lon.length ≠ data.length ∨ lat.length ≠ data.length then
    .error (.dataSetException "Input lat/lon/data arrays must have same shape.")
  else
    .ok ⟨lon, lat, data⟩

/-- `Cloud.getData()`: returns the stored value array. -/
def Cloud.getData (c : Cloud) : List Rat := c.data

/-- `Cloud.setData(data)`: evaluating `data.shape` on a non-array raises
`AttributeError`; an array whose shape differs from `self._lon.shape`
raises `DataSetException`; otherwise `self._data` is replaced.  The pair
returned is (outcome, object state after the call). -/
def Cloud.setData (c : Cloud) (d : PyVal) : Except PyErr Unit × Cloud :=
  match d with
  | .scalar _ =>
      (.error (.attributeError "object has no attribute shape"), c)
  | .arr xs =>
      if xs.length ≠ c.lon.length then
        (.error (.dataSetException "Cloud.setData() input data must match dimensions of lat/lon"), c)
      else
        (.ok (), { c with data := xs })

/-- numpy `ndarray.min()`: raises `ValueError` on an empty array, else the
least element (left fold of `min`). -/
def npMin : List Rat → Except PyErr Rat
  | [] => .error (.valueError "zero-size array to reduction operation minimum which has no identity")
  | x :: xs => .ok (xs.foldl min x)

/-- numpy `ndarray.max()`: raises `ValueError` on an empty array, else the
greatest element (left fold of `max`). -/
def npMax : List Rat → Except PyErr Rat
  | [] => .error (.valueError "zero-size array to reduction operation maximum which has no identity")
  | x :: xs => .ok (xs.foldl max x)

/-- `Cloud.getBounds()`: `(self._lon.min(), self._lon.max(), self._lat.min(),
self._lat.max())`. -/
def Cloud.getBounds (c : Cloud) : Except PyErr (Rat × Rat × Rat × Rat) := do
  let xmin ← npMin c.lon
  let xmax ← npMax c.lon
  let ymin ← npMin c.lat
  let ymax ← npMax c.lat
  return (xmin, xmax, ymin, ymax)

/-- The `bounds` 4-tuple `(xmin, xmax, ymin, ymax)` taken by `trim`. -/
structure Bounds where
  xmin : Rat
  xmax : Rat
  ymin : Rat
  ymax : Rat
deriving DecidableEq, Repr

/-- One entry of the elementwise mask computed by `trim`:
`(lon > bounds[0]) & (lon < bounds[1]) & (lat > bounds[2]) & (lat < bounds[3])`. -/
def insidePt (b : Bounds) (x y : Rat) : Bool :=
  decide (b.xmin < x) && decide (x < b.xmax) && decide (b.ymin < y) && decide (y < b.ymax)

/-- numpy boolean-mask indexing `a[mask]`: keep the entries whose mask bit
is `True`, in order. -/
def boolIndex : List Bool → List α → List α
  | [], _ => []
  | _ :: _, [] => []
  | true :: ms, x :: xs => x :: boolIndex ms xs
  | false :: ms, _ :: xs => boolIndex ms xs

/-- `Cloud.trim(bounds)`: computes the single `inside` mask from the
coordinate arrays and applies it to `_lon`, `_lat` and `_data`. -/
def Cloud.trim (c : Cloud) (b : Bounds) : Cloud :=
  let inside := List.zipWith (fun x y => insidePt b x y) c.lon c.lat
  { lon := boolIndex inside c.lon
    lat := boolIndex inside c.lat
    data := boolIndex inside c.data }

/-- numpy `ndarray.argmin()` on a 1-D array: index of the first occurrence
of the minimum (0 on the empty array). -/
def argminAux : List Rat → Nat → Nat → Rat → Nat
  | [], _, besti, _ => besti
  | x :: xs, i, besti, bestv =>
      if x < bestv then argminAux xs (i + 1) i x else argminAux xs (i + 1) besti bestv

/-- numpy `ndarray.argmin()` entry point. -/
def argmin : List Rat → Nat
  | [] => 0
  | x :: xs => argminAux xs 1 0 x

/-- Python attribute lookup on a `Cloud` instance, restricted to array
attributes: `__init__` assigns `_lon`, `_lat` and `_data` and nothing else
ever assigns an attribute, so every other name is missing. -/
def Cloud.attr (c : Cloud) : String → Option (List Rat)
  | "_lon" => some c.lon
  | "_lat" => some c.lat
  | "_data" => some c.data
  | _ => none

/-- `Cloud.getValue(lat, lon, method)`.  `dist` stands for the external
`geodetic.distance` black box, applied elementwise.  The `nearest` branch
of the source reads `self._lons` and `self._lats` — attributes that are
never assigned (only `_lon` and `_lat` are) — so that branch raises
`AttributeError` before any distance is computed; any other method raises
`NotImplementedError`. -/
def Cloud.getValue (dist : Rat → Rat → Rat → Rat → Rat) (c : Cloud)
    (lat lon : Rat) (method : String) : Except PyErr Rat :=
  if method = "nearest" then
    match c.attr "_lons", c.attr "_lats" with
    | some lons, some lats =>
        let d := List.zipWith (fun li la => dist lon lat li la) lons lats
        let imin := argmin d
        match c.data.get? imin with
        | some v => .ok v
        | none => .error (.valueError "index out of bounds")
    | _, _ => .error (.attributeError "Cloud object has no attribute _lons")
  else
    .error (.notImplementedError "Only nearest neighbor method implemented at this time.")

/-- `Cloud.interpolateToGrid(geodict, method)`: unconditionally raises
`NotImplementedError`. -/
def Cloud.interpolateToGrid {α : Type} (c : Cloud) (geodict : α)
    (method : String) : Except PyErr Rat :=
  .error (.notImplementedError "interpolateToGrid not implemented yet for the Cloud class.")

/-- The class invariant: the three stored arrays share one shape. -/
def Cloud.sameShape (c : Cloud) : Prop :=
  c.lon.length = c.lat.length ∧ c.lat.length = c.data.length

instance (c : Cloud) : Decidable c.sameShape := by
  unfold Cloud.sameShape; infer_instance

/-- The list of `(lon, lat, value)` triples a cloud holds, index by index. -/
def Cloud.triples (c : Cloud) : List (Rat × Rat × Rat) :=
  c.lon.zip (c.lat.zip c.data)

/-- `true` iff the call outcome is a raised `DataSetException`. -/
def raisedDataSetException : Except PyErr Unit → Bool
  | .error e => e.isDataSetException
  | .ok _ => false

/-! ## Theorems -/

/-- C3: for arrays of equal shape, `Cloud.__init__` succeeds and stores the
three arrays; if any two of the shapes differ, it raises `DataSetException`. -/
theorem cloud_init_spec (lon lat data : List Rat) :
    (lon.length = lat.length ∧ lat.length = data.length →
      Cloud.init lon lat data = .ok ⟨lon, lat, data⟩) ∧
    (lon.length ≠ lat.length ∨ lon.length ≠ data.length ∨ lat.length ≠ data.length →
      Cloud.init lon lat data =
        .error (.dataSetException "Input lat/lon/data arrays must have same shape.")) := by
  constructor
  · rintro ⟨h1, h2⟩
    unfold Cloud.init
    rw [if_neg (by omega)]
  · intro h
    unfold Cloud.init
    rw [if_pos h]

/-- Witness for C3 at concrete inputs: equal shapes succeed, a mismatch raises. -/
theorem cloud_init_spec_witness :
    Cloud.init [1] [2] [3] = .ok ⟨[1], [2], [3]⟩ ∧
    Cloud.init [1] [2] [] =
      .error (.dataSetException "Input lat/lon/data arrays must have same shape.") :=
  ⟨(cloud_init_spec [1] [2] [3]).1 (by simp),
   (cloud_init_spec [1] [2] []).2 (by simp)⟩

/-- C2 (amended): `setData` succeeds, replacing the stored array, iff the
input is an array whose shape equals the coordinate shape; an array of a
different shape raises `DataSetException`; a non-array input fails with
`AttributeError` (evaluating `data.shape`), not `DataSetException`. -/
theorem setData_spec (c : Cloud) (d : PyVal) :
    ((c.setData d).1 = .ok () ↔ ∃ xs, d = .arr xs ∧ xs.length = c.lon.length) ∧
    (∀ xs, d = .arr xs → xs.length = c.lon.length →
      c.setData d = (.ok (), { c with data := xs })) ∧
    (∀ xs, d = .arr xs → xs.length ≠ c.lon.length →
      c.setData d =
        (.error (.dataSetException "Cloud.setData() input data must match dimensions of lat/lon"), c)) ∧
    (∀ q, d = .scalar q →
      c.setData d = (.error (.attributeError "object has no attribute shape"), c)) := by
  refine ⟨?_, ?_, ?_, ?_⟩
  · constructor
    · intro h
      cases d with
      | scalar q => simp [Cloud.setData] at h
      | arr xs =>
        by_cases hl : xs.length = c.lon.length
        · exact ⟨xs, rfl, hl⟩
        · simp [Cloud.setData, hl] at h
    · rintro ⟨xs, rfl, hl⟩
      simp [Cloud.setData, hl]
  · rintro xs rfl hl
    simp [Cloud.setData, hl]
  · rintro xs rfl hl
    simp [Cloud.setData, hl]
  · rintro q rfl
    rfl

/-- Counterexample to C2 as stated: at a concrete cloud, `setData` on a
non-array input fails with `AttributeError`, not with `DataSetException`. -/
theorem setData_nonarray_counterexample :
    (Cloud.setData ⟨[1], [2], [3]⟩ (.scalar 5)).1 =
      .error (.attributeError "object has no attribute shape") ∧
    raisedDataSetException (Cloud.setData ⟨[1], [2], [3]⟩ (.scalar 5)).1 = false :=
  ⟨rfl, rfl⟩

/-- Witness for C2 (amended) at concrete inputs: all three outcomes occur. -/
theorem setData_spec_witness :
    Cloud.setData ⟨[1], [2], [3]⟩ (.arr [7]) = (.ok (), ⟨[1], [2], [7]⟩) ∧
    Cloud.setData ⟨[1], [2], [3]⟩ (.arr []) =
      (.error (.dataSetException "Cloud.setData() input data must match dimensions of lat/lon"),
        ⟨[1], [2], [3]⟩) ∧
    Cloud.setData ⟨[1], [2], [3]⟩ (.scalar 5) =
      (.error (.attributeError "object has no attribute shape"), ⟨[1], [2], [3]⟩) :=
  ⟨(setData_spec ⟨[1], [2], [3]⟩ (.arr [7])).2.1 [7] rfl (by simp),
   (setData_spec ⟨[1], [2], [3]⟩ (.arr [])).2.2.1 [] rfl (by simp),
   (setData_spec ⟨[1], [2], [3]⟩ (.scalar 5)).2.2.2 5 rfl⟩

/-- C9: whenever `setData` raises, the object state is unchanged — the
shape check precedes the assignment to `self._data`. -/
theorem setData_error_keeps_state (c : Cloud) (d : PyVal) (e : PyErr)
    (h : (c.setData d).1 = .error e) : (c.setData d).2 = c := by
  cases d with
  | scalar q => rfl
  | arr xs =>
    by_cases hl : xs.length = c.lon.length
    · simp [Cloud.setData, hl] at h
    · simp [Cloud.setData, hl]

/-- Witness for C9 at a concrete input: a mismatched `setData` raises and
leaves the cloud exactly as it was. -/
theorem setData_error_keeps_state_witness :
    (Cloud.setData ⟨[1], [2], [3]⟩ (.arr [])).1 =
      .error (.dataSetException "Cloud.setData() input data must match dimensions of lat/lon") ∧
    (Cloud.setData ⟨[1], [2], [3]⟩ (.arr [])).2 = ⟨[1], [2], [3]⟩ :=
  ⟨rfl, setData_error_keeps_state ⟨[1], [2], [3]⟩ (.arr [])
    (.dataSetException "Cloud.setData() input data must match dimensions of lat/lon") rfl⟩

/-- C6: `getValue` with any method other than `nearest` raises
`NotImplementedError`, and `interpolateToGrid` raises `NotImplementedError`
on every input. -/
theorem getValue_other_method_and_interpolate_stub
    (dist : Rat → Rat → Rat → Rat → Rat) (c : Cloud) (lat lon : Rat)
    (method : String) (h : method ≠ "nearest") {α : Type} (geodict : α) (m2 : String) :
    c.getValue dist lat lon method =
      .error (.notImplementedError "Only nearest neighbor method implemented at this time.") ∧
    c.interpolateToGrid geodict m2 =
      .error (.notImplementedError "interpolateToGrid not implemented yet for the Cloud class.") := by
  constructor
  · simp [Cloud.getValue, h]
  · rfl

/-- Witness for C6 at a concrete input: `method = "linear"` differs from
`"nearest"` and both calls raise `NotImplementedError`. -/
theorem getValue_other_method_and_interpolate_stub_witness :
    ("linear" : String) ≠ "nearest" ∧
    (Cloud.getValue (fun _ _ _ _ => 0) ⟨[1], [2], [3]⟩ 0 0 "linear" =
      .error (.notImplementedError "Only nearest neighbor method implemented at this time.") ∧
    Cloud.interpolateToGrid ⟨[1], [2], [3]⟩ (0 : Rat) "linear" =
      .error (.notImplementedError "interpolateToGrid not implemented yet for the Cloud class.")) :=
  ⟨by decide,
   getValue_other_method_and_interpolate_stub (fun _ _ _ _ => 0) ⟨[1], [2], [3]⟩ 0 0
     "linear" (by decide) (0 : Rat) "linear"⟩

/-- C1 (the code, evaluated): `getValue(..., method="nearest")` never reaches
the distance computation — `self._lons` and `self._lats` are attributes that
`__init__` never assigns (it assigns `_lon` and `_lat`), so the lookup raises
`AttributeError` for every cloud, every query point and every distance
function, instead of returning the nearest stored value. -/
theorem getValue_nearest_attribute_error
    (dist : Rat → Rat → Rat → Rat → Rat) (c : Cloud) (lat lon : Rat) :
    c.getValue dist lat lon "nearest" =
      .error (.attributeError "Cloud object has no attribute _lons") := rfl

/-- The left fold of `min` over a list is one of the seed or the elements. -/
lemma foldl_min_mem (xs : List Rat) : ∀ x : Rat, xs.foldl min x ∈ x :: xs := by
  induction xs with
  | nil => intro x; simp
  | cons y ys ih =>
    intro x
    rw [List.foldl_cons]
    have h := ih (min x y)
    rcases List.mem_cons.mp h with h | h
    · rw [h]
      rcases min_choice x y with hm | hm
      · rw [hm]; exact List.mem_cons_self x (y :: ys)
      · rw [hm]; exact List.mem_cons_of_mem x (List.mem_cons_self y ys)
    · exact List.mem_cons_of_mem x (List.mem_cons_of_mem y h)

/-- The left fold of `min` is a lower bound of the seed and the elements. -/
lemma foldl_min_le (xs : List Rat) : ∀ x y : Rat, y ∈ x :: xs → xs.foldl min x ≤ y := by
  induction xs with
  | nil =>
    intro x y hy
    rw [List.mem_singleton] at hy
    simp [hy]
  | cons z zs ih =>
    intro x y hy
    rw [List.foldl_cons]
    rcases List.mem_cons.mp hy with h | h
    · rw [h]
      exact le_trans (ih (min x z) (min x z) (List.mem_cons_self _ _)) (min_le_left _ _)
    · rcases List.mem_cons.mp h with h | h
      · rw [h]
        exact le_trans (ih (min x z) (min x z) (List.mem_cons_self _ _)) (min_le_right _ _)
      · exact ih (min x z) y (List.mem_cons_of_mem _ h)

/-- The left fold of `max` over a list is one of the seed or the elements. -/
lemma foldl_max_mem (xs : List Rat) : ∀ x : Rat, xs.foldl max x ∈ x :: xs := by
  induction xs with
  | nil => intro x; simp
  | cons y ys ih =>
    intro x
    rw [List.foldl_cons]
    have h := ih (max x y)
    rcases List.mem_cons.mp h with h | h
    · rw [h]
      rcases max_choice x y with hm | hm
      · rw [hm]; exact List.mem_cons_self x (y :: ys)
      · rw [hm]; exact List.mem_cons_of_mem x (List.mem_cons_self y ys)
    · exact List.mem_cons_of_mem x (List.mem_cons_of_mem y h)

/-- The left fold of `max` is an upper bound of the seed and the elements. -/
lemma le_foldl_max (xs : List Rat) : ∀ x y : Rat, y ∈ x :: xs → y ≤ xs.foldl max x := by
  induction xs with
  | nil =>
    intro x y hy
    rw [List.mem_singleton] at hy
    simp [hy]
  | cons z zs ih =>
    intro x y hy
    rw [List.foldl_cons]
    rcases List.mem_cons.mp hy with h | h
    · rw [h]
      exact le_trans (le_max_left _ _) (ih (max x z) (max x z) (List.mem_cons_self _ _))
    · rcases List.mem_cons.mp h with h | h
      · rw [h]
        exact le_trans (le_max_right _ _) (ih (max x z) (max x z) (List.mem_cons_self _ _))
      · exact ih (max x z) y (List.mem_cons_of_mem _ h)

/-- On a non-empty array, `npMin` succeeds with the least element. -/
lemma npMin_spec (xs : List Rat) (h : xs ≠ []) :
    ∃ a, npMin xs = .ok a ∧ a ∈ xs ∧ ∀ y ∈ xs, a ≤ y := by
  obtain ⟨x, xs, rfl⟩ := List.exists_cons_of_ne_nil h
  exact ⟨xs.foldl min x, rfl, foldl_min_mem xs x, fun y hy => foldl_min_le xs x y hy⟩

/-- On a non-empty array, `npMax` succeeds with the greatest element. -/
lemma npMax_spec (xs : List Rat) (h : xs ≠ []) :
    ∃ a, npMax xs = .ok a ∧ a ∈ xs ∧ ∀ y ∈ xs, y ≤ a := by
  obtain ⟨x, xs, rfl⟩ := List.exists_cons_of_ne_nil h
  exact ⟨xs.foldl max x, rfl, foldl_max_mem xs x, fun y hy => le_foldl_max xs x y hy⟩

/-- C7: on a non-empty cloud `getBounds` returns, in this order, the minimum
of the stored longitudes, their maximum, the minimum of the stored
latitudes, and their maximum. -/
theorem getBounds_spec (c : Cloud) (hlon : c.lon ≠ []) (hlat : c.lat ≠ []) :
    ∃ a b a2 b2,
      c.getBounds = .ok (a, b, a2, b2) ∧
      (a ∈ c.lon ∧ ∀ x ∈ c.lon, a ≤ x) ∧
      (b ∈ c.lon ∧ ∀ x ∈ c.lon, x ≤ b) ∧
      (a2 ∈ c.lat ∧ ∀ y ∈ c.lat, a2 ≤ y) ∧
      (b2 ∈ c.lat ∧ ∀ y ∈ c.lat, y ≤ b2) := by
  obtain ⟨a, ha, hamem, hale⟩ := npMin_spec c.lon hlon
  obtain ⟨b, hb, hbmem, hble⟩ := npMax_spec c.lon hlon
  obtain ⟨a2, ha2, ha2mem, ha2le⟩ := npMin_spec c.lat hlat
  obtain ⟨b2, hb2, hb2mem, hb2le⟩ := npMax_spec c.lat hlat
  refine ⟨a, b, a2, b2, ?_, ⟨hamem, hale⟩, ⟨hbmem, hble⟩, ⟨ha2mem, ha2le⟩, ⟨hb2mem, hb2le⟩⟩
  simp only [Cloud.getBounds, ha, hb, ha2, hb2]
  rfl

/-- Witness for C7 at a concrete cloud with two points. -/
theorem getBounds_spec_witness :
    (Cloud.lon ⟨[3, 1], [2, 4], [5, 6]⟩ ≠ [] ∧ Cloud.lat ⟨[3, 1], [2, 4], [5, 6]⟩ ≠ []) ∧
    (∃ a b a2 b2,
      Cloud.getBounds ⟨[3, 1], [2, 4], [5, 6]⟩ = .ok (a, b, a2, b2) ∧
      (a ∈ Cloud.lon ⟨[3, 1], [2, 4], [5, 6]⟩ ∧ ∀ x ∈ Cloud.lon ⟨[3, 1], [2, 4], [5, 6]⟩, a ≤ x) ∧
      (b ∈ Cloud.lon ⟨[3, 1], [2, 4], [5, 6]⟩ ∧ ∀ x ∈ Cloud.lon ⟨[3, 1], [2, 4], [5, 6]⟩, x ≤ b) ∧
      (a2 ∈ Cloud.lat ⟨[3, 1], [2, 4], [5, 6]⟩ ∧ ∀ y ∈ Cloud.lat ⟨[3, 1], [2, 4], [5, 6]⟩, a2 ≤ y) ∧
      (b2 ∈ Cloud.lat ⟨[3, 1], [2, 4], [5, 6]⟩ ∧ ∀ y ∈ Cloud.lat ⟨[3, 1], [2, 4], [5, 6]⟩, y ≤ b2)) :=
  ⟨⟨by simp, by simp⟩, getBounds_spec ⟨[3, 1], [2, 4], [5, 6]⟩ (by simp) (by simp)⟩

/-- The mask predicate `trim` filters triples by, applied to a
`(lon, lat, value)` triple. -/
def insideTriple (b : Bounds) (t : Rat × Rat × Rat) : Bool :=
  insidePt b t.1 t.2.1

/-- Applying the `inside` mask of `trim` to the three arrays, then zipping,
is the same as filtering the zipped triples by the mask predicate. -/
lemma boolIndex_zip3 (b : Bounds) :
    ∀ ls as ds : List Rat, ls.length = as.length → as.length = ds.length →
      (boolIndex (List.zipWith (fun x y => insidePt b x y) ls as) ls).zip
          ((boolIndex (List.zipWith (fun x y => insidePt b x y) ls as) as).zip
            (boolIndex (List.zipWith (fun x y => insidePt b x y) ls as) ds))
        = (ls.zip (as.zip ds)).filter (insideTriple b) := by
  intro ls
  induction ls with
  | nil => intro as ds _ _; simp [boolIndex]
  | cons l ls ih =>
    intro as ds h1 h2
    match as, ds with
    | [], _ => simp at h1
    | _ :: _, [] => simp at h2
    | a :: as, d :: ds =>
      have h1' : ls.length = as.length := by simpa using h1
      have h2' : as.length = ds.length := by simpa using h2
      simp only [List.zipWith_cons_cons]
      by_cases hin : insidePt b l a
      · rw [hin]
        simp only [boolIndex, List.zip_cons_cons, List.filter_cons]
        rw [ih as ds h1' h2']
        simp [insideTriple, hin]
      · rw [Bool.not_eq_true] at hin
        rw [hin]
        simp only [boolIndex, List.zip_cons_cons, List.filter_cons]
        rw [ih as ds h1' h2']
        simp [insideTriple, hin]

/-- `trim` on a shape-consistent cloud filters the triple list by the
`inside` mask. -/
lemma trim_triples_eq_filter (c : Cloud) (b : Bounds)
    (h1 : c.lon.length = c.lat.length) (h2 : c.lat.length = c.data.length) :
    (c.trim b).triples = c.triples.filter (insideTriple b) :=
  boolIndex_zip3 b c.lon c.lat c.data h1 h2

/-- One mask applied to two arrays of one length keeps one length. -/
lemma boolIndex_length_eq {α : Type} :
    ∀ (m : List Bool) (xs ys : List α), xs.length = ys.length →
      (boolIndex m xs).length = (boolIndex m ys).length := by
  intro m
  induction m with
  | nil => intro xs ys _; rfl
  | cons bb ms ih =>
    intro xs ys h
    match xs, ys with
    | [], [] => rfl
    | [], _ :: _ => simp at h
    | _ :: _, [] => simp at h
    | x :: xs, y :: ys =>
      have h' : xs.length = ys.length := by simpa using h
      cases bb
      · simpa [boolIndex] using ih xs ys h'
      · simpa [boolIndex] using ih xs ys h'

/-- C4: on a shape-consistent cloud, `trim(bounds)` removes every point
whose coordinates lie strictly outside the box and retains every point
whose coordinates lie strictly inside it. -/
theorem trim_removes_outside_keeps_inside (c : Cloud) (b : Bounds)
    (h1 : c.lon.length = c.lat.length) (h2 : c.lat.length = c.data.length)
    (x y v : Rat) :
    ((x < b.xmin ∨ b.xmax < x ∨ y < b.ymin ∨ b.ymax < y) →
      (x, y, v) ∉ (c.trim b).triples) ∧
    ((b.xmin < x ∧ x < b.xmax ∧ b.ymin < y ∧ y < b.ymax) →
      (x, y, v) ∈ c.triples → (x, y, v) ∈ (c.trim b).triples) := by
  constructor
  · intro hout hmem
    rw [trim_triples_eq_filter c b h1 h2] at hmem
    have hp := (List.mem_filter.mp hmem).2
    simp only [insideTriple, insidePt, Bool.and_eq_true, decide_eq_true_eq] at hp
    obtain ⟨⟨⟨p1, p2⟩, p3⟩, p4⟩ := hp
    rcases hout with h | h | h | h
    · exact absurd p1 (not_lt.mpr (le_of_lt h))
    · exact absurd p2 (not_lt.mpr (le_of_lt h))
    · exact absurd p3 (not_lt.mpr (le_of_lt h))
    · exact absurd p4 (not_lt.mpr (le_of_lt h))
  · intro hin hmem
    rw [trim_triples_eq_filter c b h1 h2]
    refine List.mem_filter.mpr ⟨hmem, ?_⟩
    simp only [insideTriple, insidePt, Bool.and_eq_true, decide_eq_true_eq]
    exact ⟨⟨⟨hin.1, hin.2.1⟩, hin.2.2.1⟩, hin.2.2.2⟩

/-- Witness for C4 at a concrete cloud: the point at (5, 5) is strictly
outside the box (0, 2, 0, 2) and is removed; the point at (1, 1) is
strictly inside and is retained. -/
theorem trim_removes_outside_keeps_inside_witness :
    ((5 : Rat), (5 : Rat), (20 : Rat)) ∉ (Cloud.trim ⟨[1, 5], [1, 5], [10, 20]⟩ ⟨0, 2, 0, 2⟩).triples ∧
    ((1 : Rat), (1 : Rat), (10 : Rat)) ∈ (Cloud.trim ⟨[1, 5], [1, 5], [10, 20]⟩ ⟨0, 2, 0, 2⟩).triples :=
  ⟨(trim_removes_outside_keeps_inside ⟨[1, 5], [1, 5], [10, 20]⟩ ⟨0, 2, 0, 2⟩
      rfl rfl 5 5 20).1 (by norm_num),
   (trim_removes_outside_keeps_inside ⟨[1, 5], [1, 5], [10, 20]⟩ ⟨0, 2, 0, 2⟩
      rfl rfl 1 1 10).2 (by norm_num) (by simp [Cloud.triples])⟩

/-- C8: on a shape-consistent cloud, `trim(bounds)` also removes every
point lying exactly on the boundary of the box, because the `inside` mask
uses strict inequalities. -/
theorem trim_removes_boundary (c : Cloud) (b : Bounds)
    (h1 : c.lon.length = c.lat.length) (h2 : c.lat.length = c.data.length)
    (x y v : Rat)
    (hb : x = b.xmin ∨ x = b.xmax ∨ y = b.ymin ∨ y = b.ymax) :
    (x, y, v) ∉ (c.trim b).triples := by
  intro hmem
  rw [trim_triples_eq_filter c b h1 h2] at hmem
  have hp := (List.mem_filter.mp hmem).2
  simp only [insideTriple, insidePt, Bool.and_eq_true, decide_eq_true_eq] at hp
  obtain ⟨⟨⟨p1, p2⟩, p3⟩, p4⟩ := hp
  rcases hb with h | h | h | h
  · rw [h] at p1; exact absurd p1 (lt_irrefl _)
  · rw [h] at p2; exact absurd p2 (lt_irrefl _)
  · rw [h] at p3; exact absurd p3 (lt_irrefl _)
  · rw [h] at p4; exact absurd p4 (lt_irrefl _)

/-- Witness for C8 at a concrete cloud: the point at (0, 1) sits on the
`xmin` edge of the box (0, 2, 0, 2) and is removed by `trim`. -/
theorem trim_removes_boundary_witness :
    ((0 : Rat), (1 : Rat), (10 : Rat)) ∉ (Cloud.trim ⟨[0], [1], [10]⟩ ⟨0, 2, 0, 2⟩).triples :=
  trim_removes_boundary ⟨[0], [1], [10]⟩ ⟨0, 2, 0, 2⟩ rfl rfl 0 1 10 (Or.inl rfl)

/-- C10: `trim` applies one boolean mask to all three arrays: the triples
after trimming are exactly the original triples filtered by the mask
predicate, hence a sublist of the original triples — each retained index
still carries its original `(lon, lat, value)` triple, in the original
relative order. -/
theorem trim_single_mask_preserves_triples (c : Cloud) (b : Bounds)
    (h1 : c.lon.length = c.lat.length) (h2 : c.lat.length = c.data.length) :
    (c.trim b).triples = c.triples.filter (insideTriple b) ∧
    (c.trim b).triples.Sublist c.triples := by
  refine ⟨trim_triples_eq_filter c b h1 h2, ?_⟩
  rw [trim_triples_eq_filter c b h1 h2]
  exact List.filter_sublist _

/-- Witness for C10 at a concrete cloud: trimming keeps the filtered
triples as a sublist of the original triples. -/
theorem trim_single_mask_preserves_triples_witness :
    (Cloud.trim ⟨[1, 5], [1, 5], [10, 20]⟩ ⟨0, 2, 0, 2⟩).triples =
      (Cloud.triples ⟨[1, 5], [1, 5], [10, 20]⟩).filter (insideTriple ⟨0, 2, 0, 2⟩) ∧
    (Cloud.trim ⟨[1, 5], [1, 5], [10, 20]⟩ ⟨0, 2, 0, 2⟩).triples.Sublist
      (Cloud.triples ⟨[1, 5], [1, 5], [10, 20]⟩) :=
  trim_single_mask_preserves_triples ⟨[1, 5], [1, 5], [10, 20]⟩ ⟨0, 2, 0, 2⟩ rfl rfl

/-- C5: the equal-shape invariant holds on every cloud `__init__` returns,
and is preserved by `setData` (which rejects any replacement that would
break it) and by `trim` (which masks the three arrays identically).
`getData`, `getBounds` and `getValue` take the state as a read-only
argument and return no state, so they preserve it trivially. -/
theorem cloud_shape_invariant :
    (∀ lon lat data c, Cloud.init lon lat data = .ok c → c.sameShape) ∧
    (∀ (c : Cloud) (d : PyVal), c.sameShape → ((c.setData d).2).sameShape) ∧
    (∀ (c : Cloud) (b : Bounds), c.sameShape → (c.trim b).sameShape) := by
  refine ⟨?_, ?_, ?_⟩
  · intro lon lat data c h
    unfold Cloud.init at h
    by_cases hc : lon.length ≠ lat.length ∨ lon.length ≠ data.length ∨ lat.length ≠ data.length
    · rw [if_pos hc] at h; exact absurd h (by simp)
    · rw [if_neg hc] at h
      cases h
      push_neg at hc
      exact ⟨hc.1, hc.2.2⟩
  · intro c d hc
    cases d with
    | scalar q => exact hc
    | arr xs =>
      by_cases hl : xs.length = c.lon.length
      · have hstep : c.setData (.arr xs) = (.ok (), { c with data := xs }) := by
          simp [Cloud.setData, hl]
        rw [hstep]
        exact ⟨hc.1, (hl.trans hc.1).symm⟩
      · have hstep : c.setData (.arr xs) =
            (.error (.dataSetException "Cloud.setData() input data must match dimensions of lat/lon"), c) := by
          simp [Cloud.setData, hl]
        rw [hstep]
        exact hc
  · intro c b hc
    exact ⟨boolIndex_length_eq _ c.lon c.lat hc.1, boolIndex_length_eq _ c.lat c.data hc.2⟩

/-- Witness for C5 at concrete inputs: a freshly constructed cloud
satisfies the invariant, and `setData` and `trim` preserve it there. -/
theorem cloud_shape_invariant_witness :
    (⟨[1], [2], [3]⟩ : Cloud).sameShape ∧
    ((Cloud.setData ⟨[1], [2], [3]⟩ (.arr [7])).2).sameShape ∧
    (Cloud.trim ⟨[1], [2], [3]⟩ ⟨0, 2, 0, 3⟩).sameShape :=
  ⟨cloud_shape_invariant.1 [1] [2] [3] ⟨[1], [2], [3]⟩ (by rfl),
   cloud_shape_invariant.2.1 ⟨[1], [2], [3]⟩ (.arr [7]) (by decide),
   cloud_shape_invariant.2.2 ⟨[1], [2], [3]⟩ ⟨0, 2, 0, 3⟩ (by decide)⟩
